import Mathlib

/-!
Shallow embedding of `custom_components/srgssr_weather/weather.py`
(agners/hass-weather-srgssr).

Modelling conventions:
* JSON scalar values are `PyVal`: a number (modelled as `ℚ`) or a string.
* Python's `float(x)` / `int(x)` coercions are `pyFloat?` / `pyInt?`,
  returning `none` where the Python call raises (`ValueError`/`TypeError`).
  String parsing covers plain decimal literals (the subset the provider
  emits); `int()` of a number truncates toward zero as in Python.
* `datetime.fromisoformat` is modelled on the fixed-width layout
  `YYYY-MM-DDTHH:MM:SS`: `fromisoformat?` validates the layout and returns
  the string itself; chronological order on a fixed layout coincides with
  lexicographic string order, which models datetime comparison.
* A JSON record is an association list `Record`; lookup failure models
  `KeyError`.
* Fallible code returns `Option` (`none` = the Python exception), and the
  update cycle is a state transformer on the entity snapshot returning the
  new snapshot plus a success flag, mutating field by field in source order.
-/

inductive PyVal where
  | num (q : ℚ)
  | str (s : String)
deriving DecidableEq, Repr

abbrev Record := List (String × PyVal)

def Record.get? (r : Record) (k : String) : Option PyVal :=
  (r.lookup k)

/-- Numeric value of a list of decimal digit characters. -/
def digitsVal (l : List Char) : Nat :=
  l.foldl (fun a c => 10 * a + (c.toNat - 48)) 0

/-- Unsigned decimal literal: `digits`, `digits.digits`, `digits.` or `.digits`. -/
def parseUnsignedDecimal? (l : List Char) : Option ℚ :=
  let intPart := l.takeWhile Char.isDigit
  let rest := l.dropWhile Char.isDigit
  match rest with
  | [] => if intPart.isEmpty then none else some (digitsVal intPart : ℚ)
  | '.' :: frac =>
    if frac.all Char.isDigit ∧ (intPart ≠ [] ∨ frac ≠ []) then
      some ((digitsVal intPart : ℚ) + (digitsVal frac : ℚ) / (10 ^ frac.length : ℚ))
    else none
  | _ => none

/-- Model of Python `float(s)` on a string (plain decimal literals). -/
def parseDecimal? (s : String) : Option ℚ :=
  match s.toList with
  | '-' :: rest => (parseUnsignedDecimal? rest).map (fun q => -q)
  | '+' :: rest => parseUnsignedDecimal? rest
  | l => parseUnsignedDecimal? l

/-- Model of Python `int(s)` on a string (plain integer literals only). -/
def parseIntStr? (s : String) : Option Int :=
  let core : List Char → Option Int := fun l =>
    if l ≠ [] ∧ l.all Char.isDigit then some (digitsVal l : Int) else none
  match s.toList with
  | '-' :: rest => (core rest).map (fun n => -n)
  | '+' :: rest => core rest
  | l => core l

/-- Truncation toward zero, as Python `int()` applied to a float. -/
def truncRat (q : ℚ) : Int :=
  if q < 0 then ⌈q⌉ else ⌊q⌋

/-- Python `float(x)`. -/
def pyFloat? : PyVal → Option ℚ
  | .num q => some q
  | .str s => parseDecimal? s

/-- Python `int(x)`. -/
def pyInt? : PyVal → Option Int
  | .num q => some (truncRat q)
  | .str s => parseIntStr? s

/-- Layout check for `YYYY-MM-DDTHH:MM:SS`. -/
def isIsoDateTime (s : String) : Bool :=
  match s.toList with
  | [y1, y2, y3, y4, s1, mo1, mo2, s2, d1, d2, t, h1, h2, s3, mi1, mi2, s4, se1, se2] =>
    ([y1, y2, y3, y4, mo1, mo2, d1, d2, h1, h2, mi1, mi2, se1, se2].all Char.isDigit)
      && s1 == '-' && s2 == '-' && t == 'T' && s3 == ':' && s4 == ':'
  | _ => false

/-- Model of `datetime.fromisoformat` followed (where needed) by `.isoformat()`:
validates the layout and keeps the canonical string, lexicographic order
standing in for chronological order. -/
def fromisoformat? : PyVal → Option String
  | .num _ => none
  | .str s => if isIsoDateTime s then some s else none

/-- Lexicographic order on char lists (by code point). -/
def charListLt : List Char → List Char → Bool
  | [], [] => false
  | [], _ :: _ => true
  | _ :: _, [] => false
  | a :: as, b :: bs =>
    if a.toNat < b.toNat then true
    else if b.toNat < a.toNat then false
    else charListLt as bs

/-- Chronological `<` on datetimes in the canonical fixed-width layout:
lexicographic comparison of the strings. -/
def dtLt (a b : String) : Bool := charListLt a.toList b.toList

/-- Value of the host framework constant `STATE_UNAVAILABLE`. -/
def STATE_UNAVAILABLE : String := "unavailable"

/-- The `SYMBOL_STATE_MAP` dict (weather.py lines 349-410). -/
def SYMBOL_STATE_MAP : List (Int × String) :=
  [(1, "sunny"), (2, "fog"), (3, "partlycloudy"), (4, "rainy"),
   (5, "lightning-rainy"), (6, "snowy"), (7, "snowy-rainy"), (8, "snowy-rainy"),
   (9, "snowy-rainy"), (10, "sunny"), (11, "sunny"), (12, "sunny"),
   (13, "sunny"), (14, "sunny"), (15, "sunny"), (16, "sunny"),
   (17, "fog"), (18, "cloudy"), (19, "cloudy"), (20, "rainy"),
   (21, "snowy"), (22, "snowy-rainy"), (23, "pouring"), (24, "snowy"),
   (25, "rainy"), (26, "lightning"), (27, "snowy"), (28, "cloudy"),
   (29, "snowy-rainy"), (30, "snowy-rainy"),
   (-1, "clear-night"), (-2, "fog"), (-3, "cloudy"), (-4, "rainy"),
   (-5, "lightning-rainy"), (-6, "snowy"), (-7, "snowy"), (-8, "snowy-rainy"),
   (-9, "lightning-rainy"), (-10, "partlycloudy"), (-11, "rainy"),
   (-12, "lightning"), (-13, "snowy"), (-14, "snowy"), (-15, "snowy-rainy"),
   (-16, "partlycloudy"), (-17, "fog"), (-18, "cloudy"), (-19, "cloudy"),
   (-20, "rainy"), (-21, "snowy"), (-22, "snowy-rainy"), (-23, "pouring"),
   (-24, "snowy"), (-25, "rainy"), (-26, "lightning"), (-27, "rainy"),
   (-28, "lightning-rainy"), (-29, "snowy-rainy"), (-30, "snowy-rainy")]

/-- Embedding of `get_condition_from_symbol` (weather.py lines 413-418). -/
def get_condition_from_symbol (symbol_id : Int) : String :=
  match SYMBOL_STATE_MAP.lookup symbol_id with
  | some condition => condition
  | none => STATE_UNAVAILABLE

/-- The `CARDINALS` tuple (weather.py lines 317-334). -/
def CARDINALS : List String :=
  ["N", "NNE", "NE", "ENE", "E", "ESE", "SE", "SSE",
   "S", "SSW", "SW", "WSW", "W", "WNW", "NW", "NNW"]

def DEG_HALF_CIRCLE : ℚ := 180

def DEG_FULL_CIRCLE : ℚ := 2 * DEG_HALF_CIRCLE

def CARDINAL_DEGREE : ℚ := DEG_FULL_CIRCLE / (CARDINALS.length : ℚ)

/-- Python `%` on floats with positive divisor (sign of the divisor). -/
def pyMod (a b : ℚ) : ℚ := a - b * (⌊a / b⌋ : ℚ)

/-- Python 3 `round` to an integer: round half to even (banker's rounding). -/
def pyRound (q : ℚ) : Int :=
  let f := ⌊q⌋
  let r := q - (f : ℚ)
  if r < 1 / 2 then f
  else if r > 1 / 2 then f + 1
  else if f % 2 = 0 then f else f + 1

/-- Embedding of `deg_to_cardinal` (weather.py lines 341-343). -/
def deg_to_cardinal (deg : ℚ) : String :=
  let i := pyRound (pyMod deg DEG_FULL_CIRCLE / CARDINAL_DEGREE)
  (CARDINALS.get? (i % (CARDINALS.length : Int)).toNat).getD ""

/-! ## Token manager (weather.py lines 38-102)

The aiohttp POST of `request_access_token` is modelled by its outcome: an
`Option TokenResponse` argument (`none` = network error / malformed JSON),
and `time.time()` by an explicit `now : Int` (epoch seconds). State-mutating
coroutines become functions returning the new state; `none` in the returned
`Option` models the exception propagating to the caller. -/

def API_URL : String := "https://api.srgssr.ch"

def URL_OAUTH : String := API_URL ++ "/oauth/v1/accesstoken"

def URL_FORECASTS : String := API_URL ++ "/srf-meteo/forecast/{geolocationId}"

/-- The JSON body returned by the token endpoint; each field `none` when the
key is absent. `access_token` is an opaque string. -/
structure TokenResponse where
  issued_at : Option PyVal
  expires_in : Option PyVal
  access_token : Option String
deriving DecidableEq, Repr

/-- The `data` MutableMapping holding config keys plus the cached
`ATTR_API_KEY` / `ATTR_EXPIRES_AT` entries (`none` = key absent). -/
structure CredData where
  consumer_key : String
  consumer_secret : String
  api_key : Option String
  expires_at : Option Int
deriving DecidableEq, Repr

/-- Embedding of `_check_client_credentials_response` (weather.py lines 45-56): defaults
`issued_at` to `int(time.time())`, then raises `ValueError` (`none`) when
`expires_in` or `access_token` is missing; otherwise returns the (possibly
defaulted) dict. -/
def _check_client_credentials_response (d : TokenResponse) (now : Int) :
    Option TokenResponse :=
  let d := if d.issued_at.isNone then { d with issued_at := some (.num (now : ℚ)) } else d
  if d.issued_at.isSome && d.expires_in.isSome && d.access_token.isSome then
    some d
  else
    none

/-- Embedding of `request_access_token` (weather.py lines 59-69): POST to `URL_OAUTH`
(outcome `net`), then validate. -/
def request_access_token (net : Option TokenResponse) (now : Int) :
    Option TokenResponse :=
  net.bind (fun data => _check_client_credentials_response data now)

/-- The expression `int(token_data["expires_in"]) + int(token_data["issued_at"]) // 1000`
(weather.py lines 79-81), with Python `//` as `Int.fdiv`. -/
def expiresAtOf (td : TokenResponse) : Option Int := do
  let ei ← td.expires_in
  let eiI ← pyInt? ei
  let ia ← td.issued_at
  let iaI ← pyInt? ia
  pure (eiI + Int.fdiv iaI 1000)

/-- Embedding of `_renew_api_key` (weather.py lines 72-87): request a token, store
`ATTR_EXPIRES_AT` then `ATTR_API_KEY` in that order. The `Bool` is `true` on
success; on `false` the exception propagates and the returned state is the
`data` mapping as the function left it. -/
def _renew_api_key (data : CredData) (net : Option TokenResponse) (now : Int) :
    CredData × Bool :=
  match request_access_token net now with
  | none => (data, false)
  | some td =>
    match expiresAtOf td with
    | none => (data, false)
    | some e =>
      let data := { data with expires_at := some e }
      match td.access_token with
      | none => (data, false)
      | some tok => ({ data with api_key := some tok }, true)

/-- The renewal condition of `get_api_key` (weather.py lines 91-96):
`ATTR_EXPIRES_AT` missing (`KeyError`) or `time.time() >= expires_at`. -/
def shouldRenew (data : CredData) (now : Int) : Bool :=
  match data.expires_at with
  | none => true
  | some expires_at => now ≥ expires_at

/-- Embedding of `get_api_key` (weather.py lines 90-102). Returns the final `data` state,
the returned token (`none` = the exception: renewal failure, or `KeyError`
on a missing `ATTR_API_KEY`), and the number of renewal attempts (token
endpoint calls): `1` when the renewal branch ran, else `0`. -/
def get_api_key (data : CredData) (net : Option TokenResponse) (now : Int) :
    CredData × Option String × Nat :=
  if shouldRenew data now then
    match _renew_api_key data net now with
    | (d, false) => (d, none, 1)
    | (d, true) => (d, d.api_key, 1)
  else
    (data, data.api_key, 0)

/-! ## Request construction of the update cycle (weather.py lines 184-217) -/

/-- Model of `URL_FORECASTS.format(geolocationId=value)`: the template ends in its
single placeholder, so formatting appends `value` to the fixed prefix. -/
def formatForecastUrl (value : String) : String :=
  API_URL ++ "/srf-meteo/forecast/" ++ value

/-- The `geoid`/`url` computation at the top of `__update` (weather.py lines
211-216): `geoid` is built from the configured coordinates but the URL is
formatted with the hardcoded literal `"47.0274,8.3020"`. -/
def updateUrl (latitude longitude : String) : String :=
  let _geoid := latitude ++ "," ++ longitude
  let url := formatForecastUrl "47.0274,8.3020"
  url

/-- The headers `__get` sends (weather.py lines 187-193): `weak_update` on
the empty kwargs stores exactly the `Authorization: Bearer <token>` entry. -/
def getRequestHeaders (api_key : String) : List (String × String) :=
  [("Authorization", "Bearer " ++ api_key)]

/-- The GET request one update cycle issues, given the configured
coordinates and the valid token obtained from `get_api_key`. -/
structure HttpRequest where
  url : String
  headers : List (String × String)
deriving DecidableEq, Repr

def updateRequest (latitude longitude api_key : String) : HttpRequest :=
  { url := updateUrl latitude longitude, headers := getRequestHeaders api_key }

/-! ## Forecast parsing and the update cycle (weather.py lines 211-314) -/

/-- The dict returned by `parse_forecast` (weather.py lines 305-314). Note
the source stores `precip_total` under **both** `"precipitation"` and
`"wind_bearing"` (line 312); the `int(day["DD_DEG"])` coercion still runs
(line 302) and can reject the record. -/
structure ForecastEntry where
  datetime : String
  temperature : ℚ
  condition : String
  symbol_id : Int
  templow : ℚ
  precipitation : ℚ
  wind_bearing : ℚ
  wind_speed : ℚ
deriving DecidableEq, Repr

/-- Embedding of `parse_forecast` (weather.py lines 294-314); `none` models `ParseError`
(any exception raised while extracting/coercing a field). -/
def parse_forecast (day : Record) : Option ForecastEntry := do
  let date ← fromisoformat? (← day.get? "local_date_time")
  let temp_high ← pyFloat? (← day.get? "TX_C")
  let temp_low ← pyFloat? (← day.get? "TN_C")
  let symbol_id ← pyInt? (← day.get? "SYMBOL_CODE")
  let condition := get_condition_from_symbol symbol_id
  let precip_total ← pyFloat? (← day.get? "RRR_MM")
  let _wind_bearing ← pyInt? (← day.get? "DD_DEG")
  let wind_speed ← pyFloat? (← day.get? "FF_KMH")
  pure { datetime := date, temperature := temp_high, condition := condition,
         symbol_id := symbol_id, templow := temp_low,
         precipitation := precip_total, wind_bearing := precip_total,
         wind_speed := wind_speed }

/-- The `data["forecast"]` object of the response JSON: the `"60minutes"` and `"day"`
arrays. -/
structure ForecastResponse where
  minutes60 : List Record
  day : List Record
deriving DecidableEq, Repr

/-- The `device_state_attributes` dict after `_state_attrs.update(...)`
(weather.py lines 243-248); all keys absent (`none`) until the first
successful cycle. -/
structure StateAttrs where
  wind_direction : Option ℚ
  symbol_id : Option Int
  precipitation : Option ℚ
  rain_probability : Option ℚ
deriving DecidableEq, Repr

/-- The entity's published snapshot: the `_state`, `_temperature`,
`_wind_speed`, `_wind_bearing`, `_state_attrs`, `_forecast` and
`_hourly_forecast` attributes (weather.py lines 115-122). -/
structure Snapshot where
  state : Option String
  temperature : Option ℚ
  wind_speed : Option ℚ
  wind_bearing : Option String
  state_attrs : StateAttrs
  forecast : List ForecastEntry
  hourly_forecast : List ForecastEntry
deriving DecidableEq, Repr

/-- The snapshot set up by `SRGSSTWeather.__init__` (weather.py lines 115-122). -/
def initialSnapshot : Snapshot :=
  { state := none, temperature := none, wind_speed := none, wind_bearing := none,
    state_attrs := ⟨none, none, none, none⟩, forecast := [], hourly_forecast := [] }

/-- Lazy scan of the `futureforecast` generator by `next(futureforecast, None)`
(weather.py lines 223-228): `none` = an exception raised while evaluating the
predicate (missing or malformed `local_date_time`); `some none` = generator
exhausted; `some (some f)` = first record with a timestamp strictly after
`now`. -/
def selectFuture : List Record → String → Option (Option Record)
  | [], _ => some none
  | f :: rest, now =>
    match (f.get? "local_date_time").bind fromisoformat? with
    | none => none
    | some t => if dtLt now t then some (some f) else selectFuture rest now

/-- The `forecastnow` record after the fallback to `hourlyforecast[-1]` (weather.py
lines 228-231): `none` = the cycle fails (generator exception, or `IndexError`
on an empty hourly array). -/
def forecastnowOf (data : ForecastResponse) (now : String) : Option Record :=
  match selectFuture data.minutes60 now with
  | none => none
  | some (some f) => some f
  | some none => data.minutes60.getLast?

/-- Lines 235-269 of `__update`, after `forecastnow` has been selected:
field-by-field mutation of the snapshot in source order, stopping (with the
partially mutated snapshot and `false`) where the source raises. The daily
parse loop appends to `forecast`, `self._forecast` is assigned that list, and
the hourly parse loop appends to the *same* list (source line 268) while
`self._hourly_forecast` receives the never-extended `hourly_forecast` list. -/
def updateFromRecord (snap : Snapshot) (data : ForecastResponse)
    (forecastnow : Record) : Snapshot × Bool :=
  match (forecastnow.get? "SYMBOL_CODE").bind pyInt? with
  | none => (snap, false)
  | some symbol_id =>
    let snap := { snap with state := some (get_condition_from_symbol symbol_id) }
    match (forecastnow.get? "TTT_C").bind pyFloat? with
    | none => (snap, false)
    | some ttt =>
      let snap := { snap with temperature := some ttt }
      match (forecastnow.get? "FF_KMH").bind pyFloat? with
      | none => (snap, false)
      | some ff =>
        let snap := { snap with wind_speed := some ff }
        match (forecastnow.get? "FX_KMH").bind pyFloat? with
        | none => (snap, false)
        | some fx =>
          let snap := { snap with wind_speed := some fx }
          match (forecastnow.get? "DD_DEG").bind pyFloat? with
          | none => (snap, false)
          | some wind_bearing_deg =>
            let snap := { snap with wind_bearing := some (deg_to_cardinal wind_bearing_deg) }
            match (forecastnow.get? "RRR_MM").bind pyFloat?,
                (forecastnow.get? "PROBPCP_PERCENT").bind pyFloat? with
            | some rrr, some prob =>
              let snap := { snap with state_attrs :=
                { wind_direction := some wind_bearing_deg, symbol_id := some symbol_id,
                  precipitation := some rrr, rain_probability := some prob } }
              let forecast := data.day.filterMap parse_forecast
              let snap := { snap with forecast := forecast }
              let hourly_forecast : List ForecastEntry := []
              let forecast := forecast ++ data.minutes60.filterMap parse_forecast
              ({ snap with forecast := forecast, hourly_forecast := hourly_forecast }, true)
            | _, _ => (snap, false)

namespace SRGSSTWeather

/-- Embedding of `SRGSSTWeather.__update` (weather.py lines 211-269) as a transformer of
the published snapshot. `fetch` is the outcome of `__get` on the forecast
URL: `none` covers token-renewal failure, network errors, a non-success
HTTP status (`raise_for_status`) and a body without the two forecast arrays;
all of these occur before any snapshot field is written. `now` is the
current time (`datetime.now().astimezone()`) in the canonical layout. The
`Bool` is `false` when `__update` raises. -/
def update (snap : Snapshot) (now : String) (fetch : Option ForecastResponse) :
    Snapshot × Bool :=
  match fetch with
  | none => (snap, false)
  | some data =>
    match forecastnowOf data now with
    | none => (snap, false)
    | some forecastnow => updateFromRecord snap data forecastnow

/-- One iteration of `__update_loop` (weather.py lines 271-283): the bare
`except Exception` swallows any `__update` failure, so the loop always
continues with whatever snapshot `__update` left behind. -/
def update_loop_step (snap : Snapshot) (now : String)
    (fetch : Option ForecastResponse) : Snapshot :=
  (update snap now fetch).1

end SRGSSTWeather

/-- Failure of `__update` before the first snapshot write: fetch failure,
failure to select `forecastnow`, or `int(forecastnow["SYMBOL_CODE"])`
raising. -/
def updateEarlyFails : String → Option ForecastResponse → Bool
  | _, none => true
  | now, some data =>
    match forecastnowOf data now with
    | none => true
    | some forecastnow => ((forecastnow.get? "SYMBOL_CODE").bind pyInt?).isNone

/-! ## Concrete fixtures for evaluation -/

/-- A current instant, in the canonical layout. -/
def now1 : String := "2026-10-12T12:00:00"

/-- A fully well-formed hourly record with a timestamp after `now1`. -/
def hourRec1 : Record :=
  [("local_date_time", .str "2026-10-12T15:00:00"), ("SYMBOL_CODE", .num 1),
   ("TTT_C", .num 5), ("FF_KMH", .num 10), ("FX_KMH", .num 20),
   ("DD_DEG", .num 90), ("RRR_MM", .num 2), ("PROBPCP_PERCENT", .num 50),
   ("TX_C", .num 7), ("TN_C", .num 3)]

/-- Result of `parse_forecast hourRec1`. -/
def hourEntry1 : ForecastEntry :=
  { datetime := "2026-10-12T15:00:00", temperature := 7, condition := "sunny",
    symbol_id := 1, templow := 3, precipitation := 2, wind_bearing := 2,
    wind_speed := 10 }

/-- A fully well-formed daily record. -/
def dayRec1 : Record :=
  [("local_date_time", .str "2026-10-12T00:00:00"), ("SYMBOL_CODE", .num 19),
   ("TX_C", .num 8), ("TN_C", .num 1), ("RRR_MM", .num 0),
   ("DD_DEG", .num 180), ("FF_KMH", .num 7)]

/-- Result of `parse_forecast dayRec1`. -/
def dayEntry1 : ForecastEntry :=
  { datetime := "2026-10-12T00:00:00", temperature := 8, condition := "cloudy",
    symbol_id := 19, templow := 1, precipitation := 0, wind_bearing := 0,
    wind_speed := 7 }

/-- A daily record whose `TX_C` temperature field is non-numeric. -/
def dayRecBad : Record :=
  [("local_date_time", .str "2026-10-13T00:00:00"), ("SYMBOL_CODE", .num 1),
   ("TX_C", .str "abc"), ("TN_C", .num 2), ("RRR_MM", .num 1),
   ("DD_DEG", .num 45), ("FF_KMH", .num 9)]

/-- A second fully well-formed daily record. -/
def dayRec3 : Record :=
  [("local_date_time", .str "2026-10-14T00:00:00"), ("SYMBOL_CODE", .num 17),
   ("TX_C", .num 12), ("TN_C", .num 4), ("RRR_MM", .num 3),
   ("DD_DEG", .num 270), ("FF_KMH", .num 11)]

/-- Result of `parse_forecast dayRec3`. -/
def dayEntry3 : ForecastEntry :=
  { datetime := "2026-10-14T00:00:00", temperature := 12, condition := "fog",
    symbol_id := 17, templow := 4, precipitation := 3, wind_bearing := 3,
    wind_speed := 11 }

/-- Response with one parseable hourly record and one parseable daily record. -/
def resp1 : ForecastResponse := ⟨[hourRec1], [dayRec1]⟩

/-- Response with three daily records, the middle one with the non-numeric
temperature, plus one parseable hourly record. -/
def resp3day : ForecastResponse := ⟨[hourRec1], [dayRec1, dayRecBad, dayRec3]⟩

/-- An hourly record that selects fine and has a parseable `SYMBOL_CODE` but a
non-numeric `TTT_C`. -/
def hourRecBadTTT : Record :=
  [("local_date_time", .str "2026-10-12T15:00:00"), ("SYMBOL_CODE", .num 19),
   ("TTT_C", .str "abc"), ("FF_KMH", .num 10), ("FX_KMH", .num 20),
   ("DD_DEG", .num 90), ("RRR_MM", .num 2), ("PROBPCP_PERCENT", .num 50)]

/-- Response whose selected current record fails at the `TTT_C` coercion. -/
def respBadCurrent : ForecastResponse := ⟨[hourRecBadTTT], []⟩

/-- A snapshot published by some previous successful cycle. -/
def snapPrev : Snapshot :=
  { state := some "sunny", temperature := some 21, wind_speed := some 5,
    wind_bearing := some "N", state_attrs := ⟨some 0, some 1, some 0, some 10⟩,
    forecast := [dayEntry1], hourly_forecast := [] }

/-! ## Helper lemmas -/

theorem truncRat_intCast (n : Int) : truncRat (n : ℚ) = n := by
  unfold truncRat
  split <;> simp

theorem pyMod_add_360 (d : ℚ) : pyMod (d + 360) DEG_FULL_CIRCLE = pyMod d DEG_FULL_CIRCLE := by
  have h360 : DEG_FULL_CIRCLE = 360 := by
    norm_num [DEG_FULL_CIRCLE, DEG_HALF_CIRCLE]
  rw [h360]
  unfold pyMod
  have hq : (d + 360) / 360 = d / 360 + 1 := by ring
  rw [hq]
  have hf : ⌊d / 360 + (1 : ℚ)⌋ = ⌊d / 360⌋ + 1 := Int.floor_add_one _
  rw [hf]
  push_cast
  ring

theorem updateFromRecord_wind_speed (snap : Snapshot) (data : ForecastResponse)
    (r : Record) (h : (updateFromRecord snap data r).2 = true) :
    (updateFromRecord snap data r).1.wind_speed = (r.get? "FX_KMH").bind pyFloat? := by
  revert h
  unfold updateFromRecord
  repeat' split
  all_goals intro h
  all_goals simp_all

/-! ## Claim theorems -/

/-- C1: after a successful update cycle the code leaves the published hourly
forecast sequence empty and appends the parsed hourly entries to the daily
list, contrary to the mandated behavior (hourly entries populate the hourly
sequence, the daily sequence holds only daily entries): on a response with
one parseable hourly and one parseable daily record, the published snapshot
has `hourly_forecast = []` and `forecast = [dayEntry1, hourEntry1]`. -/
theorem C1_hourly_misrouted :
    SRGSSTWeather.update initialSnapshot now1 (some resp1)
      = (⟨some "sunny", some 5, some 20, some (deg_to_cardinal 90),
          ⟨some 90, some 1, some 2, some 50⟩, [dayEntry1, hourEntry1], []⟩, true)
    ∧ resp1.minutes60.filterMap parse_forecast = [hourEntry1]
    ∧ resp1.day.filterMap parse_forecast = [dayEntry1] :=
  ⟨rfl, rfl, rfl⟩

/-- C2: the update cycle formats the forecast URL with the hardcoded
geolocation `"47.0274,8.3020"`, ignoring the configured coordinates (the
computed `geoid` is unused); the Bearer header part of the claim does hold. -/
theorem C2_url_hardcoded :
    updateRequest "46.9480" "7.4474" "tok"
      = ⟨"https://api.srgssr.ch/srf-meteo/forecast/47.0274,8.3020",
         [("Authorization", "Bearer tok")]⟩
    ∧ updateUrl "46.9480" "7.4474" ≠ formatForecastUrl "46.9480,7.4474"
    ∧ ∀ lat lon key, (updateRequest lat lon key).headers
        = [("Authorization", "Bearer " ++ key)] := by
  refine ⟨rfl, by decide, fun lat lon key => rfl⟩

/-- C3 counterexample: an update cycle that fails while parsing the selected
current record (non-numeric `TTT_C`, after a parseable `SYMBOL_CODE`) leaves
the snapshot partially mutated: the condition state changes while every
other field keeps its previous value, refuting "every published snapshot
field is left exactly as it was". -/
theorem C3_counterexample :
    SRGSSTWeather.update snapPrev now1 (some respBadCurrent)
      = (⟨some "cloudy", some 21, some 5, some "N", ⟨some 0, some 1, some 0, some 10⟩,
          [dayEntry1], []⟩, false)
    ∧ (SRGSSTWeather.update snapPrev now1 (some respBadCurrent)).1.state
        ≠ snapPrev.state :=
  ⟨rfl, by decide⟩

/-- C3 (amended): an update cycle that fails at the fetch step (token
renewal, HTTP error, malformed body), while selecting the current record, or
at the first field read of the selected record (`SYMBOL_CODE`) leaves every
published snapshot field exactly as it was, and the failure never propagates
out of the loop; a failure while deriving a later current-state field leaves
the fields already assigned updated. -/
theorem C3_amended (snap : Snapshot) (now : String) (fetch : Option ForecastResponse)
    (h : updateEarlyFails now fetch = true) :
    SRGSSTWeather.update snap now fetch = (snap, false)
    ∧ SRGSSTWeather.update_loop_step snap now fetch = (SRGSSTWeather.update snap now fetch).1 := by
  refine ⟨?_, rfl⟩
  cases fetch with
  | none => rfl
  | some data =>
    simp only [updateEarlyFails] at h
    simp only [SRGSSTWeather.update]
    cases hf : forecastnowOf data now with
    | none => rfl
    | some r =>
      rw [hf] at h
      simp only [Option.isNone_iff_eq_none] at h
      show updateFromRecord snap data r = (snap, false)
      unfold updateFromRecord
      rw [h]

theorem C3_amended_witness :
    SRGSSTWeather.update snapPrev now1 none = (snapPrev, false)
    ∧ SRGSSTWeather.update_loop_step snapPrev now1 none
        = (SRGSSTWeather.update snapPrev now1 none).1 :=
  C3_amended snapPrev now1 none rfl

/-- C4 counterexample: with `issued_at` absent the code defaults it to the
current time in seconds and still divides by 1000, so for `now = 1700000000`
and `expires_in = 3600` the stored `expires_at` is `1703600`, not
`expires_in` seconds in the future (`1700003600`). -/
theorem C4_counterexample :
    (_renew_api_key ⟨"k", "s", none, none⟩
        (some ⟨none, some (.num 3600), some "tok"⟩) 1700000000).1.expires_at
      = some 1703600
    ∧ (1703600 : Int) ≠ 1700000000 + 3600 :=
  ⟨rfl, by decide⟩

/-- C4 (amended): `get_valid_token` succeeds when `issued_at` is absent,
defaulting it to the current time; the stored `expires_at` equals
`expires_in + issued_at // 1000` where `issued_at` is the provider value or
the defaulted current epoch-seconds — so on the default path the result is
`expires_in + now // 1000`, NOT `expires_in` seconds in the future. -/
theorem C4_amended (data : CredData) (now e : Int) (tok : String) (ia : Option Int) :
    _renew_api_key data
        (some ⟨ia.map (fun n => PyVal.num (n : ℚ)), some (.num (e : ℚ)), some tok⟩) now
      = ({ data with
            expires_at := some (e + Int.fdiv (ia.getD now) 1000),
            api_key := some tok }, true) := by
  cases ia <;>
    simp [_renew_api_key, request_access_token, _check_client_credentials_response,
      expiresAtOf, pyInt?, truncRat_intCast]

/-- C5: `parse_forecast` stores `precip_total` (the `RRR_MM` float) under the
`wind_bearing` key instead of the computed `int(day["DD_DEG"])` (weather.py
line 312): on `dayRec1` with `DD_DEG = 180` and `RRR_MM = 0` the returned
entry has `wind_bearing = 0`, not `180` (while `precipitation` is `0` as
claimed). -/
theorem C5_wind_bearing_is_precipitation :
    parse_forecast dayRec1 = some dayEntry1
    ∧ (dayRec1.get? "DD_DEG").bind pyInt? = some 180
    ∧ dayEntry1.wind_bearing = 0 ∧ dayEntry1.precipitation = 0
    ∧ (0 : ℚ) ≠ ((180 : Int) : ℚ) :=
  ⟨rfl, rfl, rfl, rfl, by norm_num⟩

/-- C6: the daily parsing pass itself yields one entry per successfully
parsing record, in order (2 of the 3 daily records), but the published daily
sequence also receives the parsed hourly entries (source line 268), so the
response with 3 daily records (one bad) and 1 parseable hourly record ends
with 3 entries in the published daily sequence, not 2. -/
theorem C6_daily_sequence_extended :
    resp3day.day.filterMap parse_forecast = [dayEntry1, dayEntry3]
    ∧ parse_forecast dayRecBad = none
    ∧ SRGSSTWeather.update initialSnapshot now1 (some resp3day)
      = (⟨some "sunny", some 5, some 20, some (deg_to_cardinal 90),
          ⟨some 90, some 1, some 2, some 50⟩,
          [dayEntry1, dayEntry3, hourEntry1], []⟩, true)
    ∧ (SRGSSTWeather.update initialSnapshot now1 (some resp3day)).1.forecast.length = 3 :=
  ⟨rfl, rfl, rfl, rfl⟩

/-- C7: when the token endpoint's response is missing `access_token` or
`expires_in`, `get_api_key` (the spec's `get_valid_token`) fails (returns the
exception, modelled as `none`) and the credential state — cached token and
expiry — is returned exactly as it was, after exactly one renewal attempt. -/
theorem C7_token_failure_no_mutation (data : CredData) (td : TokenResponse) (now : Int)
    (hmiss : td.access_token = none ∨ td.expires_in = none)
    (hren : shouldRenew data now = true) :
    get_api_key data (some td) now = (data, none, 1) := by
  have hchk : _check_client_credentials_response td now = none := by
    unfold _check_client_credentials_response
    by_cases hia : td.issued_at.isNone <;> rcases hmiss with h | h <;> simp [hia, h]
  simp [get_api_key, hren, _renew_api_key, request_access_token, hchk]

theorem C7_token_failure_no_mutation_witness :
    shouldRenew ⟨"k", "s", some "old", some 50⟩ 50 = true
    ∧ get_api_key ⟨"k", "s", some "old", some 50⟩
        (some ⟨some (.num 1), some (.num 60), none⟩) 50
      = (⟨"k", "s", some "old", some 50⟩, none, 1) :=
  ⟨rfl, C7_token_failure_no_mutation _ _ _ (Or.inl rfl) rfl⟩

/-- C8 counterexample: a credential state with a future `expires_at` but no
cached access token. The claim mandates a renewal (no cached token), but the
code keys the decision on `expires_at` alone: it performs zero renewal calls
and fails with `KeyError` (modelled as `none`). -/
theorem C8_counterexample :
    get_api_key ⟨"k", "s", none, some 100⟩ none 0
      = (⟨"k", "s", none, some 100⟩, none, 0) := rfl

/-- C8 (amended): `get_api_key` performs a renewal (exactly one token-endpoint
call) if and only if `expires_at` is absent from the credential state or the
current time is at or past it — the presence of the cached access token is
never consulted; when `expires_at` is cached and in the future it performs
zero network calls and returns `data[ATTR_API_KEY]` unchanged. -/
theorem C8_amended (data : CredData) (net : Option TokenResponse) (now : Int) :
    ((get_api_key data net now).2.2 = if shouldRenew data now then 1 else 0)
    ∧ (shouldRenew data now = false →
        get_api_key data net now = (data, data.api_key, 0)) := by
  constructor
  · cases hs : shouldRenew data now with
    | false => simp [get_api_key, hs]
    | true =>
      simp only [get_api_key, hs, if_true]
      rcases hr : _renew_api_key data net now with ⟨d, b⟩
      cases b <;> rfl
  · intro hs
    simp [get_api_key, hs]

theorem C8_amended_witness :
    get_api_key ⟨"k", "s", some "tok", some 100⟩ none 0
      = (⟨"k", "s", some "tok", some 100⟩, some "tok", 0) :=
  (C8_amended ⟨"k", "s", some "tok", some 100⟩ none 0).2 rfl

/-- C9 counterexample: at the half-sector tie 11.25° the code's Python-3
`round` (half to even) gives sector 0 ("N"), not the next-higher sector 1
("NNE") that the claim's tie rule mandates. -/
theorem C9_counterexample :
    deg_to_cardinal (45 / 4) = "N" ∧ ("N" : String) ≠ "NNE" := by
  constructor
  · norm_num [deg_to_cardinal, pyMod, pyRound, DEG_FULL_CIRCLE, DEG_HALF_CIRCLE,
      CARDINAL_DEGREE, CARDINALS, Int.toNat_ofNat]
  · decide

/-- C9 (amended): `deg_to_cardinal` reduces its input modulo 360 and rounds
to the nearest of the 16 sectors of 22.5°, with exact half-sector ties
resolved by rounding half to even (banker's rounding): `0 ↦ "N"`,
`180 ↦ "S"`, `22.5 ↦ "NNE"`, and at the ties `11.25 ↦ "N"` (even sector 0)
while `33.75 ↦ "NE"` (even sector 2); for every degree `d`,
`deg_to_cardinal (d + 360) = deg_to_cardinal d`. -/
theorem C9_amended :
    deg_to_cardinal 0 = "N" ∧ deg_to_cardinal 180 = "S"
    ∧ deg_to_cardinal (45 / 2) = "NNE"
    ∧ deg_to_cardinal (45 / 4) = "N" ∧ deg_to_cardinal (135 / 4) = "NE"
    ∧ ∀ d : ℚ, deg_to_cardinal (d + 360) = deg_to_cardinal d := by
  refine ⟨?_, ?_, ?_, ?_, ?_, ?_⟩
  · norm_num [deg_to_cardinal, pyMod, pyRound, DEG_FULL_CIRCLE, DEG_HALF_CIRCLE,
      CARDINAL_DEGREE, CARDINALS, Int.toNat_ofNat]
  · norm_num [deg_to_cardinal, pyMod, pyRound, DEG_FULL_CIRCLE, DEG_HALF_CIRCLE,
      CARDINAL_DEGREE, CARDINALS, Int.toNat_ofNat]
    decide
  · norm_num [deg_to_cardinal, pyMod, pyRound, DEG_FULL_CIRCLE, DEG_HALF_CIRCLE,
      CARDINAL_DEGREE, CARDINALS, Int.toNat_ofNat]
  · norm_num [deg_to_cardinal, pyMod, pyRound, DEG_FULL_CIRCLE, DEG_HALF_CIRCLE,
      CARDINAL_DEGREE, CARDINALS, Int.toNat_ofNat]
  · norm_num [deg_to_cardinal, pyMod, pyRound, DEG_FULL_CIRCLE, DEG_HALF_CIRCLE,
      CARDINAL_DEGREE, CARDINALS, Int.toNat_ofNat]
    decide
  · intro d
    simp only [deg_to_cardinal, pyMod_add_360]

/-- C10: whenever an update cycle succeeds, the published wind speed is the
selected current record's `FX_KMH` value coerced to float — the `FF_KMH`
assignment on the previous source line is immediately overwritten. -/
theorem C10_wind_speed_fx (snap : Snapshot) (now : String) (data : ForecastResponse)
    (r : Record) (h1 : forecastnowOf data now = some r)
    (h2 : (SRGSSTWeather.update snap now (some data)).2 = true) :
    (SRGSSTWeather.update snap now (some data)).1.wind_speed
      = (r.get? "FX_KMH").bind pyFloat? := by
  have hu : SRGSSTWeather.update snap now (some data) = updateFromRecord snap data r := by
    simp only [SRGSSTWeather.update]
    rw [h1]
  rw [hu] at h2 ⊢
  exact updateFromRecord_wind_speed snap data r h2

theorem C10_wind_speed_fx_witness :
    (SRGSSTWeather.update initialSnapshot now1 (some resp1)).1.wind_speed
      = (hourRec1.get? "FX_KMH").bind pyFloat? :=
  C10_wind_speed_fx initialSnapshot now1 resp1 hourRec1 rfl rfl
